import Mathlib

/-!
Verification of the NAT gateway Terraform resource and the cloud-volume
client of this repository. Pure Lean embeddings of the Go functions in
`huaweicloud/resource_huaweicloud_nat_gateway_v2.go` and
`vendor/.../openstack/evs/v2/cloudvolumes/requests.go`, together with
theorems settling the specification's claims about them.
-/

set_option autoImplicit false

namespace Spec2Proof

/-! ## Error model of the golangsdk client

The refresh functions distinguish exactly one error kind, via the type
assertion `err.(golangsdk.ErrDefault404)`.  Every other error value is
opaque to the code under verification, so a single `other` constructor
carrying a status code and a message models all of them. -/

/-- Errors surfaced by the golangsdk service client.  `default404` embeds
`golangsdk.ErrDefault404`, the distinguished not-found kind; `other`
covers every remaining transport or server error. -/
inductive SdkError where
  | default404 (msg : String)
  | other (status : Nat) (msg : String)
deriving DecidableEq, Repr

/-- Whether the error value would satisfy the Go type assertion
`_, ok := err.(golangsdk.ErrDefault404)`. -/
def SdkError.isNotFound : SdkError → Bool
  | .default404 _ => true
  | .other _ _ => false

/-- A NAT gateway as decoded from a successful `natgateways.Get`:
the fields the resource code reads. -/
structure NatGateway where
  id : String
  name : String
  description : String
  spec : String
  routerID : String
  internalNetworkID : String
  tenantID : String
  status : String
deriving DecidableEq, Repr

/-- The triple returned by one invocation of a
`resource.StateRefreshFunc`, instrumented with `deleteIssued`, which
records whether this invocation called `natgateways.Delete` (the call on
line 220 of the resource file). -/
structure RefreshOutcome where
  value : Option NatGateway
  label : String
  err : Option SdkError
  deleteIssued : Bool
deriving DecidableEq, Repr

/-- One invocation of the closure built by `waitForNatGatewayActive`
(resource file lines 191-205).  `getResp` is the outcome of
`natgateways.Get(vpcV2Client, nId).Extract()`. -/
def waitForNatGatewayActiveRefresh (getResp : Except SdkError NatGateway) :
    RefreshOutcome :=
  match getResp with
  | .error e => ⟨none, "", some e, false⟩
  | .ok n =>
    if n.status = "ACTIVE" then ⟨some n, "ACTIVE", none, false⟩
    else ⟨some n, "", none, false⟩

/-- One invocation of the closure built by `waitForNatGatewayDelete`
(resource file lines 207-232).  `getResp` is the outcome of
`natgateways.Get(...).Extract()`; `delResp` is the outcome of
`natgateways.Delete(...).ExtractErr()`, consulted only when the code
reaches that call. -/
def waitForNatGatewayDeleteRefresh (getResp : Except SdkError NatGateway)
    (delResp : Except SdkError Unit) : RefreshOutcome :=
  match getResp with
  | .error e =>
    if e.isNotFound then ⟨none, "DELETED", none, false⟩
    else ⟨none, "ACTIVE", some e, false⟩
  | .ok n =>
    match delResp with
    | .error e =>
      if e.isNotFound then ⟨some n, "DELETED", none, true⟩
      else ⟨some n, "ACTIVE", some e, true⟩
    | .ok _ => ⟨some n, "ACTIVE", none, true⟩

/-- The fields of `resource.StateChangeConf` that the claims speak
about; durations are in seconds. -/
structure StateChangeConf where
  Pending : List String
  Target : List String
  TimeoutSeconds : Nat
  DelaySeconds : Nat
  MinTimeoutSeconds : Nat
deriving DecidableEq, Repr

/-- The default create/delete timeout of the resource:
`schema.DefaultTimeout(10 * time.Minute)` (resource file lines 22-25),
in seconds. -/
def natGatewayDefaultTimeoutSeconds : Nat := 600

/-- The `StateChangeConf` built by `resourceVpcNatGatewayV2Create`
(resource file lines 95-101) at the default timeout.  No `Pending`
field is set there, so the pending set is empty. -/
def natGatewayCreateStateConf : StateChangeConf :=
  ⟨[], ["ACTIVE"], natGatewayDefaultTimeoutSeconds, 5, 3⟩

/-- The `StateChangeConf` built by `resourceVpcNatGatewayV2Delete`
(resource file lines 173-180) at the default timeout. -/
def natGatewayDeleteStateConf : StateChangeConf :=
  ⟨["ACTIVE"], ["DELETED"], natGatewayDefaultTimeoutSeconds, 5, 3⟩

/-- Result of a poll loop run. -/
inductive PollOutcome where
  | success (label : String) (value : Option NatGateway)
  | failure (e : SdkError)
  | unexpectedState (label : String)
  | timeout
deriving DecidableEq, Repr

/-- Modelled from the spec: the State Poller loop of section 4.2
(`resource.StateChangeConf.WaitForState` of the vendored terraform
helper is not among the sources).  The argument list holds the outcome
of each successive refresh invocation; an exhausted list stands for the
overall deadline elapsing.  Per the spec: a refresh error is terminal
success when it is the distinguished not-found kind and the target set
contains the deleted/absent sentinel, otherwise fatal; a target label
stops with success; a pending label continues; any other label is
fatal.  The returned number counts the refresh invocations consumed,
so that "terminates immediately" and "polling stops" are observable. -/
def runPoller (pending target : List String) :
    List RefreshOutcome → PollOutcome × Nat
  | [] => (.timeout, 0)
  | r :: rest =>
    match r.err with
    | some e =>
      if e.isNotFound ∧ "DELETED" ∈ target then (.success "DELETED" r.value, 1)
      else (.failure e, 1)
    | none =>
      if r.label ∈ target then (.success r.label r.value, 1)
      else if r.label ∈ pending then
        let o := runPoller pending target rest
        (o.1, o.2 + 1)
      else (.unexpectedState r.label, 1)

/-! ## The cloud-volume client (`cloudvolumes/requests.go`) -/

/-- The golangsdk `ServiceClient` fields the cloud-volume operations
read or write: the endpoint and the resource base URL.  Passed by
pointer in Go; `*client` takes a shallow value copy of these fields. -/
structure ServiceClient where
  Endpoint : String
  ResourceBase : String
deriving DecidableEq, Repr

/-- Modelled from the spec: `ServiceClient.ResourceBaseURL` of the
golangsdk core (not among the sources) returns the resource base when
set, else the endpoint. -/
def ServiceClient.ResourceBaseURL (c : ServiceClient) : String :=
  if c.ResourceBase = "" then c.Endpoint else c.ResourceBase

/-- Modelled from the spec: the URL builders of the cloudvolumes
package (`urls.go` is not among the sources) join the client's resource
base URL with path segments. -/
def resourceURL (c : ServiceClient) (id : String) : String :=
  c.ResourceBaseURL ++ "cloudvolumes/" ++ id

/-- Modelled from the spec: see `resourceURL`. -/
def createURL (c : ServiceClient) : String :=
  c.ResourceBaseURL ++ "cloudvolumes"

/-- Modelled from the spec: see `resourceURL`. -/
def actionURL (c : ServiceClient) (id : String) : String :=
  c.ResourceBaseURL ++ "cloudvolumes/" ++ id ++ "/action"

/-- Replace the first occurrence of `old` in a character list, as Go's
`strings.Replace(s, old, new, 1)` does. -/
def replaceFirstAux (old new : List Char) : List Char → List Char
  | [] => []
  | c :: rest =>
    if old.isPrefixOf (c :: rest) then new ++ (c :: rest).drop old.length
    else c :: replaceFirstAux old new rest

/-- Go's `strings.Replace(s, old, new, 1)`: the first occurrence of
`old` in `s` is replaced by `new`; `s` is returned unchanged when `old`
does not occur. -/
def goReplaceFirst (s old new : String) : String :=
  String.mk (replaceFirstAux old.data new.data s.data)

/-- An error held by a cloud-volume `Result`: either the error of the
options builder, short-circuiting the call, or an HTTP-level failure
carrying the response status. -/
inductive VolumeError where
  | builder (msg : String)
  | http (status : Nat)
deriving DecidableEq, Repr

/-- Modelled from the spec: the base HTTP call of the golangsdk client
(its core is not among the sources) succeeds exactly when the response
status is in the accepted-status-code list of the request options. -/
def httpCall (okCodes : List Nat) (status : Nat) : Option VolumeError :=
  if status ∈ okCodes then none else some (.http status)

/-- Modelled from the spec: the accepted status codes of a `Post` issued
with `nil` request options, as section 4.1 states for Create. -/
def defaultPostOkCodes : List Nat := [200, 201, 202]

/-- Observable outcome of one cloud-volume operation: the error of the
returned `Result`, the `ServiceClient` the caller passed as it stands
after the call returns, the list of base URLs a request was issued
against (empty when no HTTP request went out), and the full request
URLs used. -/
structure VolumeCallOut where
  err : Option VolumeError
  clientAfter : ServiceClient
  issuedBases : List String
  issuedURLs : List String
deriving DecidableEq, Repr

/-- `cloudvolumes.Create` (requests.go lines 68-82).  `bodyRes` is the
outcome of `opts.ToVolumeCreateMap()`; `status` the HTTP response
status.  The code copies the client (`newClient := *client`), rewrites
the copy's `ResourceBase` by replacing the first `/v2/` with `/v2.1/`,
and posts against the copy with `nil` request options. -/
def cloudvolumesCreate (client : ServiceClient) (bodyRes : Except String Unit)
    (status : Nat) : VolumeCallOut :=
  match bodyRes with
  | .error e => ⟨some (.builder e), client, [], []⟩
  | .ok _ =>
    let newClient : ServiceClient :=
      { client with ResourceBase := goReplaceFirst client.ResourceBaseURL "/v2/" "/v2.1/" }
    ⟨httpCall defaultPostOkCodes status, client,
      [newClient.ResourceBase], [createURL newClient]⟩

/-- `cloudvolumes.ExtendSize` (requests.go lines 115-130).  Same
defensive copy and URL rewrite as `cloudvolumesCreate`; the post goes
to the action URL with `OkCodes: []int{202}`. -/
def cloudvolumesExtendSize (client : ServiceClient) (id : String)
    (bodyRes : Except String Unit) (status : Nat) : VolumeCallOut :=
  match bodyRes with
  | .error e => ⟨some (.builder e), client, [], []⟩
  | .ok _ =>
    let newClient : ServiceClient :=
      { client with ResourceBase := goReplaceFirst client.ResourceBaseURL "/v2/" "/v2.1/" }
    ⟨httpCall [202] status, client,
      [newClient.ResourceBase], [actionURL newClient id]⟩

/-- `cloudvolumes.Update` (requests.go lines 153-163): on builder
success a `Put` on the resource URL with `OkCodes: []int{200}`. -/
def cloudvolumesUpdate (client : ServiceClient) (id : String)
    (bodyRes : Except String Unit) (status : Nat) : VolumeCallOut :=
  match bodyRes with
  | .error e => ⟨some (.builder e), client, [], []⟩
  | .ok _ =>
    ⟨httpCall [200] status, client,
      [client.ResourceBaseURL], [resourceURL client id]⟩

/-- `cloudvolumes.Delete` (requests.go lines 186-200).  `opts` models
the `DeleteOptsBuilder` argument: `none` for a nil builder, otherwise
the outcome of `ToVolumeDeleteQuery`.  On builder success the query is
appended to the resource URL and a `Delete` is issued with
`OkCodes: []int{200}`. -/
def cloudvolumesDelete (client : ServiceClient) (id : String)
    (opts : Option (Except String String)) (status : Nat) : VolumeCallOut :=
  let url := resourceURL client id
  match opts with
  | some (.error e) => ⟨some (.builder e), client, [], []⟩
  | some (.ok q) =>
    ⟨httpCall [200] status, client, [client.ResourceBaseURL], [url ++ q]⟩
  | none =>
    ⟨httpCall [200] status, client, [client.ResourceBaseURL], [url]⟩

/-! ## NAT gateway update options (`resourceVpcNatGatewayV2Update`) -/

/-- `natgateways.UpdateOpts` as used by the resource: the three fields
the update handler may set, each a string whose zero value is `""`. -/
structure NatUpdateOpts where
  Name : String
  Description : String
  Spec : String
deriving DecidableEq, Repr

/-- The slice of Terraform resource data the update handler reads:
current values of the three updatable fields and the change flags
`d.HasChange(...)` reports for them. -/
structure NatResourceData where
  name : String
  description : String
  spec : String
  nameChanged : Bool
  descriptionChanged : Bool
  specChanged : Bool
deriving DecidableEq, Repr

/-- The options-building prefix of `resourceVpcNatGatewayV2Update`
(resource file lines 144-154): start from the zero-valued
`natgateways.UpdateOpts` and assign each field exactly when
`d.HasChange` reports it changed. -/
def buildNatGatewayUpdateOpts (d : NatResourceData) : NatUpdateOpts :=
  let o : NatUpdateOpts := ⟨"", "", ""⟩
  let o := if d.nameChanged then { o with Name := d.name } else o
  let o := if d.descriptionChanged then { o with Description := d.description } else o
  let o := if d.specChanged then { o with Spec := d.spec } else o
  o

/-- Modelled from the spec: the request-body builder of the golangsdk
core (`BuildRequestBody`, not among the sources) serialises an options
struct including only non-empty fields, per the `omitempty` contract of
section 4.1.  The body is the resulting list of key/value pairs. -/
def natUpdateBody (o : NatUpdateOpts) : List (String × String) :=
  (if o.Name = "" then [] else [("name", o.Name)])
    ++ (if o.Description = "" then [] else [("description", o.Description)])
    ++ (if o.Spec = "" then [] else [("spec", o.Spec)])

/-! ## The spec validator (`resourceNatGatewayV2ValidateSpec`) -/

/-- `var Specs = [4]string{"1", "2", "3", "4"}` (resource file
line 234). -/
def Specs : List String := ["1", "2", "3", "4"]

/-- The loop of `resourceNatGatewayV2ValidateSpec`: whether `value`
equals some element of the array. -/
def specMatches (value : String) : List String → Bool
  | [] => false
  | s :: rest => if value = s then true else specMatches value rest

/-- The error built by `fmt.Errorf("%q must be one of %v", k, Specs)`:
the offending schema key together with the allowed values. -/
structure ValidateError where
  key : String
  allowed : List String
deriving DecidableEq, Repr

/-- `resourceNatGatewayV2ValidateSpec` (resource file lines 236-245):
returns the warning and error slices; on a match both are empty,
otherwise one error is appended. -/
def resourceNatGatewayV2ValidateSpec (v : String) (k : String) :
    List String × List ValidateError :=
  if specMatches v Specs then ([], [])
  else ([], [⟨k, Specs⟩])

/-- A concrete still-present gateway, used to evaluate the theorems on
closed inputs. -/
def sampleGateway : NatGateway :=
  ⟨"ng-1", "gw", "d", "1", "r-1", "net-1", "t-1", "ACTIVE"⟩

/-! ## Helper lemmas -/

/-- A run of refresh outcomes that are all error-free and labelled
pending (but not target) only defers the poll outcome, adding its
length to the number of consumed invocations. -/
theorem runPoller_append_pending (pending target : List String)
    (l : List RefreshOutcome) :
    ∀ pre : List RefreshOutcome,
      (∀ r ∈ pre, r.err = none ∧ r.label ∉ target ∧ r.label ∈ pending) →
      runPoller pending target (pre ++ l)
        = ((runPoller pending target l).1,
           (runPoller pending target l).2 + pre.length) := by
  intro pre
  induction pre with
  | nil => intro _; simp
  | cons r pre ih =>
    intro h
    obtain ⟨he, ht, hp⟩ := h r (List.mem_cons_self r pre)
    have hrest := ih (fun x hx => h x (List.mem_cons_of_mem r hx))
    simp [runPoller, he, ht, hp, hrest, Nat.add_assoc]

/-- The delete refresh only reports errors that fail the
`ErrDefault404` type assertion: a not-found from either call is
converted before it can be returned. -/
theorem waitForNatGatewayDeleteRefresh_err_not_notFound
    (g : Except SdkError NatGateway) (dl : Except SdkError Unit)
    (e : SdkError)
    (h : (waitForNatGatewayDeleteRefresh g dl).err = some e) :
    e.isNotFound = false := by
  cases g with
  | error e0 =>
    by_cases h0 : e0.isNotFound
    · simp [waitForNatGatewayDeleteRefresh, h0] at h
    · simp [waitForNatGatewayDeleteRefresh, h0] at h
      simpa [← h] using (by simpa using h0)
  | ok n =>
    cases dl with
    | error e0 =>
      by_cases h0 : e0.isNotFound
      · simp [waitForNatGatewayDeleteRefresh, h0] at h
      · simp [waitForNatGatewayDeleteRefresh, h0] at h
        simpa [← h] using (by simpa using h0)
    | ok u => simp [waitForNatGatewayDeleteRefresh] at h

/-! ## Claims about the NAT gateway polling -/

/-- Claim C1: during delete-polling, whenever the refresh's Get call (or
the embedded Delete call) fails with the distinguished not-found kind
`golangsdk.ErrDefault404`, the refresh returns the terminal label
"DELETED" with a nil error; every other error from Get or Delete is
returned by the refresh and stops the poll there, after any number of
earlier still-present polls (so on the first poll as well as on later
ones). -/
theorem natGateway_deleteRefresh_notFound_terminal
    (g : Except SdkError NatGateway) (dl : Except SdkError Unit) :
    (∀ e, g = .error e → e.isNotFound = true →
      waitForNatGatewayDeleteRefresh g dl = ⟨none, "DELETED", none, false⟩)
    ∧ (∀ n e, g = .ok n → dl = .error e → e.isNotFound = true →
      waitForNatGatewayDeleteRefresh g dl = ⟨some n, "DELETED", none, true⟩)
    ∧ (∀ e, g = .error e → e.isNotFound = false →
      (waitForNatGatewayDeleteRefresh g dl).err = some e)
    ∧ (∀ n e, g = .ok n → dl = .error e → e.isNotFound = false →
      (waitForNatGatewayDeleteRefresh g dl).err = some e)
    ∧ (∀ (pre rest : List RefreshOutcome) (e : SdkError),
        (∀ r ∈ pre, r.err = none ∧ r.label = "ACTIVE") →
        (waitForNatGatewayDeleteRefresh g dl).err = some e →
        runPoller natGatewayDeleteStateConf.Pending
            natGatewayDeleteStateConf.Target
            (pre ++ waitForNatGatewayDeleteRefresh g dl :: rest)
          = (.failure e, pre.length + 1))
    ∧ (∀ (pre rest : List RefreshOutcome),
        (∀ r ∈ pre, r.err = none ∧ r.label = "ACTIVE") →
        (waitForNatGatewayDeleteRefresh g dl).err = none →
        (waitForNatGatewayDeleteRefresh g dl).label = "DELETED" →
        runPoller natGatewayDeleteStateConf.Pending
            natGatewayDeleteStateConf.Target
            (pre ++ waitForNatGatewayDeleteRefresh g dl :: rest)
          = (.success "DELETED" (waitForNatGatewayDeleteRefresh g dl).value,
             pre.length + 1)) := by
  have hpre : ∀ pre : List RefreshOutcome,
      (∀ r ∈ pre, r.err = none ∧ r.label = "ACTIVE") →
      ∀ r ∈ pre, r.err = none
        ∧ r.label ∉ natGatewayDeleteStateConf.Target
        ∧ r.label ∈ natGatewayDeleteStateConf.Pending := by
    intro pre h r hr
    obtain ⟨h1, h2⟩ := h r hr
    refine ⟨h1, ?_, ?_⟩ <;>
      simp [natGatewayDeleteStateConf, natGatewayDefaultTimeoutSeconds, h2]
  refine ⟨?_, ?_, ?_, ?_, ?_, ?_⟩
  · intro e hg hnf
    simp [waitForNatGatewayDeleteRefresh, hg, hnf]
  · intro n e hg hd hnf
    simp [waitForNatGatewayDeleteRefresh, hg, hd, hnf]
  · intro e hg hnf
    simp [waitForNatGatewayDeleteRefresh, hg, hnf]
  · intro n e hg hd hnf
    simp [waitForNatGatewayDeleteRefresh, hg, hd, hnf]
  · intro pre rest e hp herr
    have hnf := waitForNatGatewayDeleteRefresh_err_not_notFound g dl e herr
    rw [runPoller_append_pending _ _ _ pre (hpre pre hp)]
    simp [runPoller, herr, hnf, Nat.add_comm]
  · intro pre rest hp herr hlab
    rw [runPoller_append_pending _ _ _ pre (hpre pre hp)]
    simp [runPoller, herr, hlab, natGatewayDeleteStateConf, Nat.add_comm]

/-- Closed instance of claim C1: a 404 from Get yields ("DELETED", nil)
on the spot, and a 500 from the embedded Delete after two still-present
polls stops the third poll with that error. -/
theorem natGateway_deleteRefresh_notFound_terminal_witness :
    waitForNatGatewayDeleteRefresh
        (.error (SdkError.default404 "not found")) (.ok ())
      = ⟨none, "DELETED", none, false⟩
    ∧ runPoller natGatewayDeleteStateConf.Pending
        natGatewayDeleteStateConf.Target
        ([⟨some sampleGateway, "ACTIVE", none, true⟩,
          ⟨some sampleGateway, "ACTIVE", none, true⟩]
          ++ waitForNatGatewayDeleteRefresh (.ok sampleGateway)
              (.error (SdkError.other 500 "boom")) :: [])
      = (.failure (SdkError.other 500 "boom"), 3) := by
  constructor
  · exact (natGateway_deleteRefresh_notFound_terminal
      (.error (SdkError.default404 "not found")) (.ok ())).1
      (SdkError.default404 "not found") rfl rfl
  · exact (natGateway_deleteRefresh_notFound_terminal
      (.ok sampleGateway) (.error (SdkError.other 500 "boom"))).2.2.2.2.1
      [⟨some sampleGateway, "ACTIVE", none, true⟩,
       ⟨some sampleGateway, "ACTIVE", none, true⟩] []
      (SdkError.other 500 "boom") (by simp) rfl

/-- Claim C2: in one delete-polling refresh invocation the embedded
Delete call is attempted exactly when the Get call succeeded, so a
not-found from Get suppresses Delete in that invocation; and once the
refresh reports the terminal "DELETED" label the poll consumes no
further refresh invocation, hence never issues Delete again. -/
theorem natGateway_deleteRefresh_delete_iff_get_ok
    (g : Except SdkError NatGateway) (dl : Except SdkError Unit) :
    ((waitForNatGatewayDeleteRefresh g dl).deleteIssued = true ↔ ∃ n, g = .ok n)
    ∧ (∀ rest : List RefreshOutcome,
        (waitForNatGatewayDeleteRefresh g dl).label = "DELETED" →
        (waitForNatGatewayDeleteRefresh g dl).err = none →
        (runPoller natGatewayDeleteStateConf.Pending
            natGatewayDeleteStateConf.Target
            (waitForNatGatewayDeleteRefresh g dl :: rest)).2 = 1) := by
  constructor
  · cases g with
    | error e =>
      by_cases h0 : e.isNotFound <;>
        simp [waitForNatGatewayDeleteRefresh, h0]
    | ok n =>
      cases dl with
      | error e =>
        by_cases h0 : e.isNotFound <;>
          simp [waitForNatGatewayDeleteRefresh, h0]
      | ok u => simp [waitForNatGatewayDeleteRefresh]
  · intro rest hlab herr
    simp [runPoller, herr, hlab, natGatewayDeleteStateConf]

/-- Closed instance of claim C2: with Get failing not-found, no Delete
goes out; with Get succeeding, Delete goes out; after a "DELETED"
report only that one invocation is consumed. -/
theorem natGateway_deleteRefresh_delete_iff_get_ok_witness :
    (waitForNatGatewayDeleteRefresh
        (.error (SdkError.default404 "not found")) (.ok ())).deleteIssued = false
    ∧ (waitForNatGatewayDeleteRefresh (.ok sampleGateway) (.ok ())).deleteIssued = true
    ∧ (runPoller natGatewayDeleteStateConf.Pending
        natGatewayDeleteStateConf.Target
        (waitForNatGatewayDeleteRefresh
            (.error (SdkError.default404 "not found")) (.ok ())
          :: [⟨some sampleGateway, "ACTIVE", none, true⟩])).2 = 1 := by
  refine ⟨?_, ?_, ?_⟩
  · have h := (natGateway_deleteRefresh_delete_iff_get_ok
      (.error (SdkError.default404 "not found")) (.ok ())).1
    have h2 : ¬ (waitForNatGatewayDeleteRefresh
        (.error (SdkError.default404 "not found"))
        (.ok ())).deleteIssued = true := by
      rw [h]
      rintro ⟨n, hn⟩
      simp at hn
    simpa using h2
  · exact (natGateway_deleteRefresh_delete_iff_get_ok
      (.ok sampleGateway) (.ok ())).1.mpr ⟨sampleGateway, rfl⟩
  · exact (natGateway_deleteRefresh_delete_iff_get_ok
      (.error (SdkError.default404 "not found")) (.ok ())).2
      [⟨some sampleGateway, "ACTIVE", none, true⟩] rfl rfl

/-- Claim C3: a refresh outcome whose label lies in neither the pending
nor the target set makes the poller stop at once with a fatal
unexpected-state report, consuming no further refresh invocation; the
create refresh labels every status other than "ACTIVE" with "", and the
delete refresh labels every still-present resource "ACTIVE". -/
theorem poller_unexpected_state_fatal :
    (∀ (pending target : List String) (r : RefreshOutcome)
        (rest : List RefreshOutcome),
      r.err = none → r.label ∉ target → r.label ∉ pending →
      runPoller pending target (r :: rest) = (.unexpectedState r.label, 1))
    ∧ (∀ n : NatGateway, n.status ≠ "ACTIVE" →
        waitForNatGatewayActiveRefresh (.ok n) = ⟨some n, "", none, false⟩)
    ∧ (∀ (n : NatGateway) (dl : Except SdkError Unit),
        (∀ e, dl = .error e → e.isNotFound = false) →
        (waitForNatGatewayDeleteRefresh (.ok n) dl).label = "ACTIVE") := by
  refine ⟨?_, ?_, ?_⟩
  · intro pending target r rest he ht hp
    simp [runPoller, he, ht, hp]
  · intro n h
    simp [waitForNatGatewayActiveRefresh, h]
  · intro n dl h
    cases dl with
    | error e => simp [waitForNatGatewayDeleteRefresh, h e rfl]
    | ok u => simp [waitForNatGatewayDeleteRefresh]

/-- Closed instance of claim C3: the label "ERROR" (outside the delete
poll's pending and target sets) stops the poller at once, a gateway
with status "PENDING_CREATE" is labelled "", and a still-present
gateway is labelled "ACTIVE". -/
theorem poller_unexpected_state_fatal_witness :
    runPoller natGatewayDeleteStateConf.Pending
        natGatewayDeleteStateConf.Target
        [⟨some sampleGateway, "ERROR", none, false⟩,
         ⟨some sampleGateway, "ACTIVE", none, true⟩]
      = (.unexpectedState "ERROR", 1)
    ∧ waitForNatGatewayActiveRefresh
        (.ok { sampleGateway with status := "PENDING_CREATE" })
      = ⟨some { sampleGateway with status := "PENDING_CREATE" }, "", none, false⟩
    ∧ (waitForNatGatewayDeleteRefresh (.ok sampleGateway) (.ok ())).label
      = "ACTIVE" := by
  refine ⟨?_, ?_, ?_⟩
  · exact poller_unexpected_state_fatal.1
      natGatewayDeleteStateConf.Pending natGatewayDeleteStateConf.Target
      ⟨some sampleGateway, "ERROR", none, false⟩
      [⟨some sampleGateway, "ACTIVE", none, true⟩]
      rfl (by simp [natGatewayDeleteStateConf])
      (by simp [natGatewayDeleteStateConf])
  · exact poller_unexpected_state_fatal.2.1
      { sampleGateway with status := "PENDING_CREATE" } (by simp)
  · exact poller_unexpected_state_fatal.2.2 sampleGateway (.ok ())
      (fun e he => by simp at he)

/-- Claim C4: for both `StateChangeConf` values the NAT gateway
resource builds, the target and pending sets are disjoint, and the
default 10 minute timeout strictly exceeds the 5 second initial
delay. -/
theorem natGateway_stateConf_invariants :
    natGatewayCreateStateConf.Target ∩ natGatewayCreateStateConf.Pending = []
    ∧ natGatewayDeleteStateConf.Target ∩ natGatewayDeleteStateConf.Pending = []
    ∧ natGatewayCreateStateConf.DelaySeconds
        < natGatewayCreateStateConf.TimeoutSeconds
    ∧ natGatewayDeleteStateConf.DelaySeconds
        < natGatewayDeleteStateConf.TimeoutSeconds := by
  refine ⟨rfl, rfl, ?_, ?_⟩ <;> decide

/-- Claim C5: the create-polling refresh propagates every Get error
unchanged — the not-found kind included — and the create poll then
stops with that error after the one invocation instead of treating it
as success: not-found is recoverable only under the delete target
set. -/
theorem natGateway_createRefresh_propagates_errors (e : SdkError) :
    waitForNatGatewayActiveRefresh (.error e) = ⟨none, "", some e, false⟩
    ∧ (∀ rest : List RefreshOutcome,
        runPoller natGatewayCreateStateConf.Pending
            natGatewayCreateStateConf.Target
            (waitForNatGatewayActiveRefresh (.error e) :: rest)
          = (.failure e, 1)) := by
  constructor
  · simp [waitForNatGatewayActiveRefresh]
  · intro rest
    simp [runPoller, waitForNatGatewayActiveRefresh, natGatewayCreateStateConf]

/-! ## Claims about the cloud-volume client -/

/-- Counterexample to claim C6 as stated: the volume Delete call passes
`OkCodes: []int{200}`, so an HTTP 202 response — which the claim says
is accepted as success — yields an error in the returned result. -/
theorem cloudvolumesDelete_rejects_202 :
    (cloudvolumesDelete ⟨"https://evs.example.com/v2/pid/", ""⟩
        "vol-1" none 202).err = some (.http 202) := rfl

/-- Claim C6 amended: the volume Delete issues a DELETE request on the
resource URL and accepts exactly HTTP status 200 as success; any other
status — 202 included — yields an error in the returned result. -/
theorem cloudvolumesDelete_accepts_only_200
    (c : ServiceClient) (id : String) (status : Nat) :
    ((cloudvolumesDelete c id none status).err = none ↔ status = 200)
    ∧ (cloudvolumesDelete c id none status).issuedURLs = [resourceURL c id]
    ∧ (∀ q : String,
        (cloudvolumesDelete c id (some (.ok q)) status).err = none
          ↔ status = 200) := by
  refine ⟨?_, rfl, ?_⟩
  · simp [cloudvolumesDelete, httpCall]
  · intro q
    simp [cloudvolumesDelete, httpCall]

/-- Claim C7: Create and ExtendSize leave every field of the caller's
client unchanged, and on builder success each issues its one request
against a per-call copy whose base URL has the first "/v2/" replaced by
"/v2.1/". -/
theorem cloudvolumes_versioned_defensive_copy
    (c : ServiceClient) (id : String) (b : Except String Unit)
    (status : Nat) :
    (cloudvolumesCreate c b status).clientAfter = c
    ∧ (cloudvolumesExtendSize c id b status).clientAfter = c
    ∧ (b = .ok () →
        (cloudvolumesCreate c b status).issuedBases
          = [goReplaceFirst c.ResourceBaseURL "/v2/" "/v2.1/"]
        ∧ (cloudvolumesExtendSize c id b status).issuedBases
          = [goReplaceFirst c.ResourceBaseURL "/v2/" "/v2.1/"])
    ∧ goReplaceFirst "https://evs.example.com/v2/pid/" "/v2/" "/v2.1/"
      = "https://evs.example.com/v2.1/pid/" := by
  refine ⟨?_, ?_, ?_, by decide⟩
  · cases b <;> rfl
  · cases b <;> rfl
  · intro hb
    subst hb
    exact ⟨rfl, rfl⟩

/-- Closed instance of claim C7: on a concrete client whose resource
base is `https://evs.example.com/v2/pid/`, Create leaves the client
unchanged and posts against the rewritten v2.1 base. -/
theorem cloudvolumes_versioned_defensive_copy_witness :
    (cloudvolumesCreate ⟨"", "https://evs.example.com/v2/pid/"⟩
        (.ok ()) 200).clientAfter
      = ⟨"", "https://evs.example.com/v2/pid/"⟩
    ∧ (cloudvolumesCreate ⟨"", "https://evs.example.com/v2/pid/"⟩
        (.ok ()) 200).issuedBases
      = [goReplaceFirst
          (ServiceClient.ResourceBaseURL ⟨"", "https://evs.example.com/v2/pid/"⟩)
          "/v2/" "/v2.1/"] := by
  have h := cloudvolumes_versioned_defensive_copy
    ⟨"", "https://evs.example.com/v2/pid/"⟩ "vol-1" (.ok ()) 200
  exact ⟨h.1, (h.2.2.1 rfl).1⟩

/-- The fields of the options struct built by the update handler are
the current values under their change flags. -/
theorem buildNatGatewayUpdateOpts_fields (d : NatResourceData) :
    (buildNatGatewayUpdateOpts d).Name = (if d.nameChanged then d.name else "")
    ∧ (buildNatGatewayUpdateOpts d).Description
      = (if d.descriptionChanged then d.description else "")
    ∧ (buildNatGatewayUpdateOpts d).Spec
      = (if d.specChanged then d.spec else "") := by
  cases hn : d.nameChanged <;> cases hd : d.descriptionChanged <;>
    cases hs : d.specChanged <;>
    simp [buildNatGatewayUpdateOpts, hn, hd, hs]

/-- A zero-valued field's key never appears in the serialised update
body. -/
theorem natUpdateBody_key_absent (o : NatUpdateOpts) :
    (o.Name = "" → ∀ v, ("name", v) ∉ natUpdateBody o)
    ∧ (o.Description = "" → ∀ v, ("description", v) ∉ natUpdateBody o)
    ∧ (o.Spec = "" → ∀ v, ("spec", v) ∉ natUpdateBody o) := by
  refine ⟨?_, ?_, ?_⟩ <;> intro h v <;> simp [natUpdateBody, h]

/-- Claim C8: in the NAT gateway update handler each of the fields
name, description and spec is assigned into `UpdateOpts` exactly when
Terraform reports it changed; an unchanged field keeps the zero value
"" and its key is omitted from the request body. -/
theorem natGateway_update_changed_fields_only (d : NatResourceData) :
    (d.nameChanged = true → (buildNatGatewayUpdateOpts d).Name = d.name)
    ∧ (d.nameChanged = false → (buildNatGatewayUpdateOpts d).Name = ""
        ∧ ∀ v, ("name", v) ∉ natUpdateBody (buildNatGatewayUpdateOpts d))
    ∧ (d.descriptionChanged = true →
        (buildNatGatewayUpdateOpts d).Description = d.description)
    ∧ (d.descriptionChanged = false →
        (buildNatGatewayUpdateOpts d).Description = ""
        ∧ ∀ v, ("description", v) ∉ natUpdateBody (buildNatGatewayUpdateOpts d))
    ∧ (d.specChanged = true → (buildNatGatewayUpdateOpts d).Spec = d.spec)
    ∧ (d.specChanged = false → (buildNatGatewayUpdateOpts d).Spec = ""
        ∧ ∀ v, ("spec", v) ∉ natUpdateBody (buildNatGatewayUpdateOpts d)) := by
  obtain ⟨f1, f2, f3⟩ := buildNatGatewayUpdateOpts_fields d
  obtain ⟨a1, a2, a3⟩ := natUpdateBody_key_absent (buildNatGatewayUpdateOpts d)
  refine ⟨?_, ?_, ?_, ?_, ?_, ?_⟩
  · intro h; simp [f1, h]
  · intro h
    have hz : (buildNatGatewayUpdateOpts d).Name = "" := by simp [f1, h]
    exact ⟨hz, a1 hz⟩
  · intro h; simp [f2, h]
  · intro h
    have hz : (buildNatGatewayUpdateOpts d).Description = "" := by simp [f2, h]
    exact ⟨hz, a2 hz⟩
  · intro h; simp [f3, h]
  · intro h
    have hz : (buildNatGatewayUpdateOpts d).Spec = "" := by simp [f3, h]
    exact ⟨hz, a3 hz⟩

/-- Closed instance of claim C8: with only the name changed, the
options carry the new name, while description and spec stay zero and
their keys are absent from the request body. -/
theorem natGateway_update_changed_fields_only_witness :
    (buildNatGatewayUpdateOpts ⟨"new-name", "old-d", "1", true, false, false⟩).Name
      = "new-name"
    ∧ (buildNatGatewayUpdateOpts
        ⟨"new-name", "old-d", "1", true, false, false⟩).Description = ""
    ∧ (∀ v, ("description", v)
        ∉ natUpdateBody (buildNatGatewayUpdateOpts
            ⟨"new-name", "old-d", "1", true, false, false⟩))
    ∧ (∀ v, ("spec", v)
        ∉ natUpdateBody (buildNatGatewayUpdateOpts
            ⟨"new-name", "old-d", "1", true, false, false⟩)) := by
  have h := natGateway_update_changed_fields_only
    ⟨"new-name", "old-d", "1", true, false, false⟩
  exact ⟨h.1 rfl, (h.2.2.2.1 rfl).1, (h.2.2.2.1 rfl).2, (h.2.2.2.2.2 rfl).2⟩

/-- Claim C9: for each of Create, ExtendSize, Update and Delete, a
failing options builder makes the returned result carry exactly that
builder error while no HTTP request is issued and the client is left
untouched. -/
theorem cloudvolumes_builder_error_short_circuits
    (c : ServiceClient) (id : String) (e : String) (status : Nat) :
    cloudvolumesCreate c (.error e) status = ⟨some (.builder e), c, [], []⟩
    ∧ cloudvolumesExtendSize c id (.error e) status
      = ⟨some (.builder e), c, [], []⟩
    ∧ cloudvolumesUpdate c id (.error e) status
      = ⟨some (.builder e), c, [], []⟩
    ∧ cloudvolumesDelete c id (some (.error e)) status
      = ⟨some (.builder e), c, [], []⟩ :=
  ⟨rfl, rfl, rfl, rfl⟩

/-- `specMatches` decides membership in the allowed-values list. -/
theorem specMatches_iff_mem (v : String) :
    ∀ l : List String, specMatches v l = true ↔ v ∈ l := by
  intro l
  induction l with
  | nil => simp [specMatches]
  | cons s rest ih => by_cases h : v = s <;> simp [specMatches, h, ih]

/-- Claim C10: the spec validator returns no errors exactly when the
value is one of "1", "2", "3", "4"; otherwise it returns exactly one
error; it never returns a warning. -/
theorem natGateway_validateSpec_characterisation (v k : String) :
    ((resourceNatGatewayV2ValidateSpec v k).2 = [] ↔ v ∈ Specs)
    ∧ (v ∉ Specs → (resourceNatGatewayV2ValidateSpec v k).2.length = 1)
    ∧ (resourceNatGatewayV2ValidateSpec v k).1 = [] := by
  by_cases h : v ∈ Specs
  · have hm : specMatches v Specs = true := (specMatches_iff_mem v Specs).mpr h
    simp [resourceNatGatewayV2ValidateSpec, hm, h]
  · have hm : ¬ specMatches v Specs = true :=
      fun hc => h ((specMatches_iff_mem v Specs).mp hc)
    simp [resourceNatGatewayV2ValidateSpec, hm, h]

/-- Closed instance of claim C10: "2" validates cleanly while "5" draws
exactly one error, and neither draws a warning. -/
theorem natGateway_validateSpec_characterisation_witness :
    (resourceNatGatewayV2ValidateSpec "2" "spec").2 = []
    ∧ (resourceNatGatewayV2ValidateSpec "5" "spec").2.length = 1
    ∧ (resourceNatGatewayV2ValidateSpec "5" "spec").1 = [] := by
  refine ⟨?_, ?_, ?_⟩
  · exact (natGateway_validateSpec_characterisation "2" "spec").1.mpr (by decide)
  · exact (natGateway_validateSpec_characterisation "5" "spec").2.1 (by decide)
  · exact (natGateway_validateSpec_characterisation "5" "spec").2.2

end Spec2Proof
